import Mathlib

/-!
Verification of the callback / monitor-tracking core of fastNLP
(`fastNLP/core/callbacks/callback.py`).

Monitor values are Python floats used only through strict order comparisons
and the two infinities; we embed them as rationals extended with `-inf` and
`+inf` (`MFloat`).  Results mappings (Python dicts of metric name to scalar)
are embedded as association lists `List (String × MFloat)` preserving
insertion order.  Mutation of the tracker object is embedded as explicit
state passing: a method that mutates `self` returns the updated tracker.
A Python `raise` is embedded as `Except.error` carrying the message.
-/

/-- A Python float as used by the monitor tracker: a finite value (embedded
as a rational) or one of the two infinities produced by `float('inf')` /
`float('-inf')`. -/
inductive MFloat where
  | ninf : MFloat
  | fin (q : ℚ) : MFloat
  | pinf : MFloat
deriving DecidableEq, Repr

/-- Python `<` on these values: `-inf` is below every finite value and
`+inf`, finite values compare as rationals, `+inf` is above everything. -/
def MFloat.lt : MFloat → MFloat → Bool
  | ninf, ninf => false
  | ninf, _ => true
  | fin _, ninf => false
  | fin a, fin b => decide (a < b)
  | fin _, pinf => true
  | pinf, _ => false

/-- Python `<=` on these values. -/
def MFloat.le (a b : MFloat) : Bool := !(MFloat.lt b a)

/-- The state of a `HasMonitorCallback` instance: the attributes set in
`__init__` / `set_monitor`, together with the runtime class name
(`self.__class__.__name__`, fixed per instance in Python). -/
structure HasMonitorCallback where
  className : String
  monitor : Option String
  larger_better : Bool
  monitor_value : MFloat
  must_have_moinitor : Bool
deriving DecidableEq, Repr

/-- The `_real_monitor` attribute lives beside the rest of the state; we keep
it in the same structure. -/
structure TrackerState extends HasMonitorCallback where
  _real_monitor : Option String
deriving DecidableEq, Repr

/-- The slice of the trainer collaborator consulted by
`on_after_trainer_initialized`: its `monitor` and `larger_better`. -/
structure Trainer where
  monitor : Option String
  larger_better : Bool
deriving DecidableEq, Repr

/-- The message of the `RuntimeError` raised by
`on_after_trainer_initialized`, naming the callback class. -/
def monitorRuntimeError (className : String) : String :=
  "No `monitor` is set for " ++ className ++
    ". You can set it in the initialization or through Trainer."

namespace TrackerState

/-- `HasMonitorCallback.set_monitor`: stores the requested name (Python keeps
`str(monitor)` when not `None`, `None` otherwise — the identity on our
embedded `Option String`), stores `bool(larger_better)`, resets
`monitor_value` to `float('-inf')` when `larger_better` else `float('inf')`,
and sets `_real_monitor` to the stored monitor. -/
def set_monitor (s : TrackerState) (monitor : Option String)
    (larger_better : Bool) : TrackerState :=
  let s := { s with monitor := monitor }
  let s := { s with larger_better := larger_better }
  let s := if larger_better then { s with monitor_value := MFloat.ninf }
           else { s with monitor_value := MFloat.pinf }
  { s with _real_monitor := s.monitor }

/-- `HasMonitorCallback.__init__`: calls `set_monitor` and stores
`must_have_moinitor` (attribute name as spelled in the source). -/
def init (className : String) (monitor : Option String)
    (larger_better : Bool) (must_have_monitor : Bool) : TrackerState :=
  let s : TrackerState :=
    { className := className, monitor := none, larger_better := false,
      monitor_value := MFloat.fin 0, must_have_moinitor := must_have_monitor,
      _real_monitor := none }
  s.set_monitor monitor larger_better

/-- `HasMonitorCallback.is_former_monitor_value_better`: `better = False`;
set to `True` when `(larger_better and v1 > v2) or (not larger_better and
v1 < v2)`. -/
def is_former_monitor_value_better (s : TrackerState)
    (monitor_value1 monitor_value2 : MFloat) : Bool :=
  let better := false
  let better :=
    if (s.larger_better && MFloat.lt monitor_value2 monitor_value1)
        || (!s.larger_better && MFloat.lt monitor_value1 monitor_value2)
    then true else better
  better

/-- `HasMonitorCallback.is_better_monitor_value`: compares against the stored
`self.monitor_value`; when `keep_if_better and better`, stores the new value.
Returns `better` together with the updated instance state. -/
def is_better_monitor_value (s : TrackerState) (monitor_value : MFloat)
    (keep_if_better : Bool := true) : Bool × TrackerState :=
  let better := s.is_former_monitor_value_better monitor_value s.monitor_value
  let s := if keep_if_better && better
           then { s with monitor_value := monitor_value } else s
  (better, s)

/-- `HasMonitorCallback.on_after_trainer_initialized`: if `self.monitor is
None and trainer.monitor is not None`, call `set_monitor` with the trainer's
values; then, if `self.must_have_moinitor and self.monitor is None`, raise a
`RuntimeError` naming the class.  The raise is embedded as `Except.error`. -/
def on_after_trainer_initialized (s : TrackerState) (trainer : Trainer) :
    Except String TrackerState :=
  let s := if s.monitor.isNone && trainer.monitor.isSome
           then s.set_monitor trainer.monitor trainer.larger_better
           else s
  if s.must_have_moinitor && s.monitor.isNone
  then .error (monitorRuntimeError s.className)
  else .ok s

end TrackerState

/-- Check whether `pre` is a prefix of `l`, on lists of characters. -/
def charsPref : List Char → List Char → Bool
  | [], _ => true
  | _ :: _, [] => false
  | a :: as, b :: bs => a == b && charsPref as bs

/-- Check whether `needle` occurs inside `hay`, on lists of characters. -/
def charsSub (needle : List Char) : List Char → Bool
  | [] => charsPref needle []
  | c :: cs => charsPref needle (c :: cs) || charsSub needle cs

/-- String containment built from the character-list check. -/
def strContains (hay needle : String) : Bool :=
  charsSub needle.data hay.data

/-- Look up `key` among the result keys (first exact match, in insertion
order). -/
def findExact (key : Option String) (res : List (String × MFloat)) :
    Option (String × MFloat) :=
  match key with
  | none => none
  | some k => res.find? (fun p => p.1 == k)

/-- First result entry whose key contains `key` as a substring. -/
def findFuzzy (key : Option String) (res : List (String × MFloat)) :
    Option (String × MFloat) :=
  match key with
  | none => none
  | some k => res.find? (fun p => strContains p.1 k)

/-- Modelled from the spec: `_get_monitor_value` (imported from
`fastNLP/core/callbacks/utils.py`, which is not among the sources) resolves
the requested monitor name against the available result keys — "exact match
wins; otherwise a best-effort fuzzy/substring match against `_real_monitor`
(falling back toward `monitor`) selects a candidate key deterministically" —
and returns the chosen key together with the numeric value stored under it.
Here: exact match on `monitor`, else exact match on `real_monitor`, else the
first key containing `monitor`, else the first key containing
`real_monitor`, else the first key in insertion order. -/
def getMonitorValueHelper (monitor real_monitor : Option String)
    (res : List (String × MFloat)) : String × MFloat :=
  match findExact monitor res with
  | some p => p
  | none =>
    match findExact real_monitor res with
    | some p => p
    | none =>
      match findFuzzy monitor res with
      | some p => p
      | none =>
        match findFuzzy real_monitor res with
        | some p => p
        | none => res.headD ("", MFloat.fin 0)

/-- `apply_to_collection(results, dtype=CanItemDataType, function=lambda x:
x.item())` unwraps tensor-like scalars to plain numbers.  In this embedding
result values are already plain scalars (`MFloat`), so the normalization is
the identity on them; keys and order are untouched. -/
def normalizeResults (results : List (String × MFloat)) :
    List (String × MFloat) :=
  results.map (fun p => (p.1, p.2))

namespace TrackerState

/-- `HasMonitorCallback.get_monitor_value`: returns `0` when `results` is
empty; otherwise normalizes the values, resolves the monitor key, warns when
`self._real_monitor != use_monitor`, stores `use_monitor` into
`_real_monitor`, and returns the value.  Result: the returned number,
whether the substitution warning was emitted, and the updated state.  The
function is total: no path raises. -/
def get_monitor_value (s : TrackerState) (results : List (String × MFloat)) :
    MFloat × Bool × TrackerState :=
  if results.length == 0 then
    (MFloat.fin 0, false, s)
  else
    let results := normalizeResults results
    let r := getMonitorValueHelper s.monitor s._real_monitor results
    let use_monitor := r.1
    let monitor_value := r.2
    let warned := s._real_monitor != some use_monitor
    (monitor_value, warned, { s with _real_monitor := some use_monitor })

/-- Run `is_better_monitor_value` (with `keep_if_better=True`) on each value
of the list in turn, collecting the returned booleans. -/
def run_better_calls (s : TrackerState) (vs : List MFloat) :
    TrackerState × List Bool :=
  match vs with
  | [] => (s, [])
  | v :: rest =>
    let r := s.is_better_monitor_value v true
    let r' := run_better_calls r.2 rest
    (r'.1, r.1 :: r'.2)

end TrackerState

/-- The base `Callback` class as far as identity is concerned: its
`callback_name` property reads `self.__class__.__name__`, which we carry as
a per-instance field (fixed at construction, as the runtime class is in
Python). -/
structure Callback where
  className : String
deriving DecidableEq, Repr

/-- `Callback.callback_name`: returns `self.__class__.__name__`. -/
def Callback.callback_name (c : Callback) : String :=
  c.className

/-- A plain Python function as passed to the function adapter: its
`__name__` attribute, plus an opaque tag distinguishing different function
objects that happen to share a name. -/
structure NamedFn where
  name : String
  tag : Nat
deriving DecidableEq, Repr

/-- Modelled from the spec: `_SingleEventState` (from
`fastNLP/core/callbacks/callback_events.py`, not among the sources) is an
event identifier carrying `value` (the event-method name string) and the
filter parameters `every`, `once` and `filter_fn` recorded when the event
was requested. -/
structure _SingleEventState where
  value : String
  every : Option Nat
  once : Option Nat
  filter_fn : Option (Nat → Bool)

/-- Modelled from the spec: `Filter(every, once, filter_fn)` (from
`fastNLP/core/callbacks/callback_events.py`, not among the sources) holds
one firing policy — a custom predicate on the running call count if
`filter_fn` is given, else "fire exactly on call `once`" if given, else
"fire when the count is a multiple of `every`" (default 1) — together with
an internal call counter that starts at 0 and is incremented on every
invocation, the first invocation counting as 1. -/
structure EventFilter where
  every : Option Nat
  once : Option Nat
  filter_fn : Option (Nat → Bool)
  count : Nat

/-- Construction of a fresh `Filter(every, once, filter_fn)`: the counter
starts at 0. -/
def EventFilter.make (every once : Option Nat)
    (filter_fn : Option (Nat → Bool)) : EventFilter :=
  { every := every, once := once, filter_fn := filter_fn, count := 0 }

/-- The result of `_filter(fn)`: the wrapped function, carrying its own
filter state next to the underlying function. -/
structure FilteredFn where
  filter : EventFilter
  fn : NamedFn

/-- Modelled from the spec: one call to a filtered function increments the
internal counter, then evaluates the active policy on the new count;
returns whether the underlying handler fired, with the updated state. -/
def FilteredFn.call (f : FilteredFn) : Bool × FilteredFn :=
  let cnt := f.filter.count + 1
  let fire :=
    match f.filter.filter_fn with
    | some p => p cnt
    | none =>
      match f.filter.once with
      | some k => cnt == k
      | none => cnt % (f.filter.every.getD 1) == 0
  (fire, { f with filter := { f.filter with count := cnt } })

/-- Python `setattr` on the dynamic attribute table embedded as an
association list: replace the binding if the name exists, else append. -/
def setAttr (attrs : List (String × FilteredFn)) (k : String)
    (v : FilteredFn) : List (String × FilteredFn) :=
  match attrs with
  | [] => [(k, v)]
  | (k', v') :: rest =>
    if k' == k then (k, v) :: rest else (k', v') :: setAttr rest k v

/-- The argument of `_CallbackWrapper.__init__`: a single event
(`Events`-member, i.e. a `_SingleEventState`) or an `EventsList` of them. -/
inductive EventArg where
  | single (e : _SingleEventState)
  | list (es : List _SingleEventState)

/-- `_CallbackWrapper` instance state: `self.fn` plus the dynamically set
per-event attributes. -/
structure _CallbackWrapper where
  fn : NamedFn
  attrs : List (String × FilteredFn)

/-- `_CallbackWrapper.__init__`: stores `self.fn = fn`; for an `EventsList`,
iterates its events, constructing for each a fresh
`Filter(each_event.every, each_event.once, each_event.filter_fn)` and
setting `setattr(self, each_event.value, _filter(fn))`; for a single
`_SingleEventState`, does the same once. -/
def _CallbackWrapper.init (event : EventArg) (fn : NamedFn) :
    _CallbackWrapper :=
  let base : _CallbackWrapper := { fn := fn, attrs := [] }
  match event with
  | .list es =>
    { base with
      attrs := es.foldl
        (fun attrs e =>
          setAttr attrs e.value
            { filter := EventFilter.make e.every e.once e.filter_fn,
              fn := fn })
        [] }
  | .single e =>
    { base with
      attrs := setAttr [] e.value
        { filter := EventFilter.make e.every e.once e.filter_fn, fn := fn } }

/-- `_CallbackWrapper.callback_name`: returns `self.fn.__name__`. -/
def _CallbackWrapper.callback_name (w : _CallbackWrapper) : String :=
  w.fn.name

/-- Invoking the handler bound under attribute `eventValue` of the wrapper:
that binding's filter is called (its counter advances); every other
attribute is untouched. -/
def _CallbackWrapper.invoke (w : _CallbackWrapper) (eventValue : String) :
    _CallbackWrapper :=
  { w with
    attrs := w.attrs.map
      (fun p => if p.1 == eventValue then (p.1, p.2.call.2) else p) }

/-- Fetch the filter state bound under an attribute name. -/
def _CallbackWrapper.getAttr (w : _CallbackWrapper) (k : String) :
    Option FilteredFn :=
  (w.attrs.find? (fun p => p.1 == k)).map (fun p => p.2)

/-- Direction-aware "not worse": with larger-better the new value is at
least the old one, otherwise at most. -/
def dirLe (lb : Bool) (old new : MFloat) : Bool :=
  if lb then MFloat.le old new else MFloat.le new old

theorem MFloat.lt_irrefl (a : MFloat) : MFloat.lt a a = false := by
  cases a <;> simp [MFloat.lt]

theorem MFloat.le_refl (a : MFloat) : MFloat.le a a = true := by
  simp [MFloat.le, MFloat.lt_irrefl]

theorem MFloat.lt_asymm {a b : MFloat} (h : MFloat.lt a b = true) :
    MFloat.lt b a = false := by
  cases a <;> cases b <;> simp_all [MFloat.lt]
  exact le_of_lt h

theorem MFloat.le_trans {a b c : MFloat} (h1 : MFloat.le a b = true)
    (h2 : MFloat.le b c = true) : MFloat.le a c = true := by
  cases a <;> cases b <;> cases c <;> simp_all [MFloat.le, MFloat.lt]
  linarith

theorem MFloat.lt_then_le {a b : MFloat} (h : MFloat.lt a b = true) :
    MFloat.le a b = true := by
  simp [MFloat.le, MFloat.lt_asymm h]

/-- C1: `is_former_monitor_value_better(v1, v2)` is true exactly when
(`larger_better` and `v1 > v2`) or (not `larger_better` and `v1 < v2`), and
it is false on equal values in both directions. -/
theorem is_former_monitor_value_better_iff :
    ∀ (s : TrackerState) (v1 v2 : MFloat),
      (s.is_former_monitor_value_better v1 v2 = true ↔
        ((s.larger_better = true ∧ MFloat.lt v2 v1 = true) ∨
         (s.larger_better = false ∧ MFloat.lt v1 v2 = true)))
      ∧ s.is_former_monitor_value_better v1 v1 = false := by
  intro s v1 v2
  constructor
  · cases h : s.larger_better <;>
      simp [TrackerState.is_former_monitor_value_better, h]
  · cases h : s.larger_better <;>
      simp [TrackerState.is_former_monitor_value_better, h, MFloat.lt_irrefl]

/-- C2: `is_better_monitor_value(value, keep_if_better)` returns the
direction-aware comparison of `value` against the stored `monitor_value`,
and overwrites `monitor_value` with `value` exactly when the comparison is
true and `keep_if_better` is true; otherwise the state is unchanged. -/
theorem is_better_monitor_value_spec :
    ∀ (s : TrackerState) (v : MFloat) (keep : Bool),
      (s.is_better_monitor_value v keep).1 =
          s.is_former_monitor_value_better v s.monitor_value
      ∧ (s.is_better_monitor_value v keep).2 =
          (if s.is_former_monitor_value_better v s.monitor_value = true
              ∧ keep = true
           then { s with monitor_value := v } else s) := by
  intro s v keep
  refine ⟨rfl, ?_⟩
  cases keep <;>
    cases h : s.is_former_monitor_value_better v s.monitor_value <;>
      simp [TrackerState.is_better_monitor_value, h]

theorem is_better_monitor_value_frame (s : TrackerState) (v : MFloat)
    (k : Bool) :
    (s.is_better_monitor_value v k).2.larger_better = s.larger_better ∧
    (s.is_better_monitor_value v k).2.monitor = s.monitor := by
  unfold TrackerState.is_better_monitor_value
  dsimp only
  split <;> exact ⟨rfl, rfl⟩

theorem is_better_monitor_value_dirLe (s : TrackerState) (v : MFloat)
    (k : Bool) :
    dirLe s.larger_better s.monitor_value
      (s.is_better_monitor_value v k).2.monitor_value = true := by
  unfold TrackerState.is_better_monitor_value
  dsimp only
  split
  · rename_i h
    have hb : s.is_former_monitor_value_better v s.monitor_value = true :=
      (Bool.and_eq_true _ _ |>.mp h).2
    unfold TrackerState.is_former_monitor_value_better at hb
    cases hlb : s.larger_better <;> simp [hlb] at hb <;>
      simp [dirLe, hlb, MFloat.lt_then_le hb]
  · cases s.larger_better <;> simp [dirLe, MFloat.le_refl]

theorem dirLe_refl (lb : Bool) (a : MFloat) : dirLe lb a a = true := by
  cases lb <;> simp [dirLe, MFloat.le_refl]

theorem dirLe_trans {lb : Bool} {a b c : MFloat} (h1 : dirLe lb a b = true)
    (h2 : dirLe lb b c = true) : dirLe lb a c = true := by
  cases lb <;> simp [dirLe] at h1 h2 ⊢
  · exact MFloat.le_trans h2 h1
  · exact MFloat.le_trans h1 h2

theorem run_better_calls_lb (s : TrackerState) (vs : List MFloat) :
    (s.run_better_calls vs).1.larger_better = s.larger_better := by
  induction vs generalizing s with
  | nil => rfl
  | cons v rest ih =>
    unfold TrackerState.run_better_calls
    dsimp only
    rw [ih]
    exact (is_better_monitor_value_frame s v true).1

theorem run_better_calls_dirLe (s : TrackerState) (vs : List MFloat) :
    dirLe s.larger_better s.monitor_value
      (s.run_better_calls vs).1.monitor_value = true := by
  induction vs generalizing s with
  | nil => exact dirLe_refl _ _
  | cons v rest ih =>
    unfold TrackerState.run_better_calls
    dsimp only
    have h1 := is_better_monitor_value_dirLe s v true
    have h2 := ih (s.is_better_monitor_value v true).2
    rw [(is_better_monitor_value_frame s v true).1] at h2
    exact dirLe_trans h1 h2

/-- C3: across any sequence of `is_better_monitor_value` calls,
`monitor_value` moves only in the configured "better" direction; in
particular, starting from the larger-better sentinel, the calls
1, 5, 3, 8, 2 leave `monitor_value` at 8 and return true exactly on
1, 5 and 8. -/
theorem monitor_value_monotonic :
    (∀ (s : TrackerState) (vs : List MFloat),
        dirLe s.larger_better s.monitor_value
          (s.run_better_calls vs).1.monitor_value = true)
    ∧ ((TrackerState.init "C" (some "m") true false).run_better_calls
          [MFloat.fin 1, MFloat.fin 5, MFloat.fin 3, MFloat.fin 8,
           MFloat.fin 2]).1.monitor_value = MFloat.fin 8
    ∧ ((TrackerState.init "C" (some "m") true false).run_better_calls
          [MFloat.fin 1, MFloat.fin 5, MFloat.fin 3, MFloat.fin 8,
           MFloat.fin 2]).2 = [true, true, false, true, false] := by
  refine ⟨run_better_calls_dirLe, by decide, by decide⟩

/-- C4: on an empty results mapping, `get_monitor_value` returns 0 for every
tracker state (the embedded function is total, so no exception is raised on
this path). -/
theorem get_monitor_value_empty_zero :
    ∀ (s : TrackerState), (s.get_monitor_value []).1 = MFloat.fin 0 := by
  intro s
  rfl

/-- C10: on an empty results mapping, `get_monitor_value` leaves the whole
tracker state unchanged and emits no substitution warning. -/
theorem get_monitor_value_empty_frame :
    ∀ (s : TrackerState),
      (s.get_monitor_value []).2.2 = s
      ∧ (s.get_monitor_value []).2.1 = false := by
  intro s
  exact ⟨rfl, rfl⟩

theorem normalizeResults_id (results : List (String × MFloat)) :
    normalizeResults results = results := by
  simp [normalizeResults]

theorem getMonitorValueHelper_key_mem (monitor real_monitor : Option String)
    (res : List (String × MFloat)) (h : res ≠ []) :
    ∃ v, ((getMonitorValueHelper monitor real_monitor res).1, v) ∈ res := by
  unfold getMonitorValueHelper
  split
  · rename_i p hp
    refine ⟨p.2, ?_⟩
    unfold findExact at hp
    split at hp
    · exact absurd hp (by simp)
    · exact List.mem_of_find?_eq_some hp
  · split
    · rename_i p hp
      refine ⟨p.2, ?_⟩
      unfold findExact at hp
      split at hp
      · exact absurd hp (by simp)
      · exact List.mem_of_find?_eq_some hp
    · split
      · rename_i p hp
        refine ⟨p.2, ?_⟩
        unfold findFuzzy at hp
        split at hp
        · exact absurd hp (by simp)
        · exact List.mem_of_find?_eq_some hp
      · split
        · rename_i p hp
          refine ⟨p.2, ?_⟩
          unfold findFuzzy at hp
          split at hp
          · exact absurd hp (by simp)
          · exact List.mem_of_find?_eq_some hp
        · match res, h with
          | (k, v) :: rest, _ => exact ⟨v, by simp⟩

theorem findExact_key (u : String) (res : List (String × MFloat)) (v : MFloat)
    (hm : (u, v) ∈ res) :
    ∃ q, findExact (some u) res = some q ∧ q.1 = u := by
  have hs : (res.find? (fun p => p.1 == u)).isSome := by
    rw [List.find?_isSome]
    exact ⟨(u, v), hm, by simp⟩
  match hq : res.find? (fun p => p.1 == u) with
  | some q =>
    exact ⟨q, by simp [findExact, hq], by simpa using List.find?_some hq⟩
  | none => rw [hq] at hs; simp at hs

theorem getMonitorValueHelper_exact1 {monitor r : Option String}
    {res : List (String × MFloat)} {p : String × MFloat}
    (h : findExact monitor res = some p) :
    getMonitorValueHelper monitor r res = p := by
  simp [getMonitorValueHelper, h]

theorem getMonitorValueHelper_exact2 {monitor r : Option String}
    {res : List (String × MFloat)} {q : String × MFloat}
    (h1 : findExact monitor res = none) (h2 : findExact r res = some q) :
    getMonitorValueHelper monitor r res = q := by
  simp [getMonitorValueHelper, h1, h2]

theorem getMonitorValueHelper_stable (monitor r : Option String)
    (res : List (String × MFloat)) (h : res ≠ []) :
    (getMonitorValueHelper monitor
        (some (getMonitorValueHelper monitor r res).1) res).1 =
      (getMonitorValueHelper monitor r res).1 := by
  cases hfe : findExact monitor res with
  | some p => rw [getMonitorValueHelper_exact1 hfe,
                  getMonitorValueHelper_exact1 hfe]
  | none =>
    obtain ⟨v, hv⟩ := getMonitorValueHelper_key_mem monitor r res h
    obtain ⟨q, hq, hq1⟩ :=
      findExact_key (getMonitorValueHelper monitor r res).1 res v hv
    rw [getMonitorValueHelper_exact2 hfe hq, hq1]

/-- C5: on non-empty results, the substitution warning fires exactly when
the key resolved this call differs from the stored `_real_monitor`; after
the call `_real_monitor` equals the resolved key, so repeating the call on
the same results warns no second time. -/
theorem get_monitor_value_warning_spec (s : TrackerState)
    (results : List (String × MFloat)) (h : results ≠ []) :
    ((s.get_monitor_value results).2.1 = true ↔
        s._real_monitor ≠
          some (getMonitorValueHelper s.monitor s._real_monitor results).1)
    ∧ (s.get_monitor_value results).2.2._real_monitor =
        some (getMonitorValueHelper s.monitor s._real_monitor results).1
    ∧ (((s.get_monitor_value results).2.2.get_monitor_value results).2.1
        = false) := by
  have hlen : (results.length == 0) = false := by
    cases results
    · exact absurd rfl h
    · rfl
  refine ⟨?_, ?_, ?_⟩
  · simp [TrackerState.get_monitor_value, hlen, normalizeResults_id,
          bne_iff_ne]
  · simp [TrackerState.get_monitor_value, hlen, normalizeResults_id]
  · simp [TrackerState.get_monitor_value, hlen, normalizeResults_id,
          bne_iff_ne, getMonitorValueHelper_stable s.monitor s._real_monitor
            results h]

/-- C5 witness: a tracker watching "acc" on results `[("acc", 1)]`. -/
theorem get_monitor_value_warning_spec_witness :
    (let s := TrackerState.init "M" (some "acc") true false
     let res : List (String × MFloat) := [("acc", MFloat.fin 1)]
     res ≠ [] ∧
       (((s.get_monitor_value res).2.1 = true ↔
           s._real_monitor ≠
             some (getMonitorValueHelper s.monitor s._real_monitor res).1)
        ∧ (s.get_monitor_value res).2.2._real_monitor =
            some (getMonitorValueHelper s.monitor s._real_monitor res).1
        ∧ ((s.get_monitor_value res).2.2.get_monitor_value res).2.1
            = false)) :=
  ⟨by decide, get_monitor_value_warning_spec _ _ (by decide)⟩

/-- C6: `on_after_trainer_initialized` adopts the trainer's monitor and
direction exactly when its own monitor is unset and the trainer's is not
`None`, and raises a `RuntimeError` naming the callback's class exactly
when, after that adoption step, `must_have_moinitor` holds and the monitor
is still unset. -/
theorem on_after_trainer_initialized_spec :
    ∀ (s : TrackerState) (t : Trainer),
      s.on_after_trainer_initialized t =
        (let s1 := if s.monitor = none ∧ t.monitor ≠ none
                   then s.set_monitor t.monitor t.larger_better else s
         if s1.must_have_moinitor = true ∧ s1.monitor = none
         then Except.error (monitorRuntimeError s1.className)
         else Except.ok s1) := by
  intro s t
  unfold TrackerState.on_after_trainer_initialized
  cases hm : s.monitor <;> cases ht : t.monitor <;>
    cases hmh : s.must_have_moinitor <;>
      simp [hm, ht, hmh, TrackerState.set_monitor]

/-- C7: `set_monitor` stores the requested name and direction, resets
`monitor_value` to `-inf` when larger-better else `+inf`, and sets
`_real_monitor` to the requested name. -/
theorem set_monitor_spec :
    ∀ (s : TrackerState) (monitor : Option String) (lb : Bool),
      s.set_monitor monitor lb =
        { s with monitor := monitor, larger_better := lb,
                 monitor_value := if lb then MFloat.ninf else MFloat.pinf,
                 _real_monitor := monitor } := by
  intro s monitor lb
  cases lb <;> rfl

/-- C8: `callback_name` of a plain callback is its class name; for the
function adapter it is the wrapped function's name — wrapping `my_hook`
yields "my_hook", not the adapter type's name. -/
theorem callback_name_spec :
    (∀ c : Callback, c.callback_name = c.className)
    ∧ (∀ (event : EventArg) (fn : NamedFn),
        (_CallbackWrapper.init event fn).callback_name = fn.name)
    ∧ (_CallbackWrapper.init
          (.single ⟨"on_train_begin", none, none, none⟩)
          ⟨"my_hook", 0⟩).callback_name = "my_hook"
    ∧ (_CallbackWrapper.init
          (.single ⟨"on_train_begin", none, none, none⟩)
          ⟨"my_hook", 0⟩).callback_name ≠ "_CallbackWrapper" := by
  refine ⟨fun c => rfl, fun event fn => ?_, rfl, by decide⟩
  cases event <;> rfl

/-- C9: constructing the adapter binds, per target event, an attribute named
by the event's value holding the function behind a fresh filter built from
that event's settings; two different events get independent filter states
whose counters advance independently. -/
theorem wrapper_event_binding_spec :
    (∀ (e : _SingleEventState) (fn : NamedFn),
        (_CallbackWrapper.init (.single e) fn).attrs =
          [(e.value,
            { filter := EventFilter.make e.every e.once e.filter_fn,
              fn := fn })])
    ∧ (∀ (e1 e2 : _SingleEventState) (fn : NamedFn),
        e1.value ≠ e2.value →
        (_CallbackWrapper.init (.list [e1, e2]) fn).attrs =
            [(e1.value,
              { filter := EventFilter.make e1.every e1.once e1.filter_fn,
                fn := fn }),
             (e2.value,
              { filter := EventFilter.make e2.every e2.once e2.filter_fn,
                fn := fn })]
          ∧ (∀ p ∈ (_CallbackWrapper.init (.list [e1, e2]) fn).attrs,
              p.2.filter.count = 0)
          ∧ (((_CallbackWrapper.init (.list [e1, e2]) fn).invoke
                e1.value).getAttr e1.value).map (fun f => f.filter.count)
              = some 1
          ∧ ((_CallbackWrapper.init (.list [e1, e2]) fn).invoke
                e1.value).getAttr e2.value
              = (_CallbackWrapper.init (.list [e1, e2]) fn).getAttr
                  e2.value) := by
  constructor
  · intro e fn
    rfl
  · intro e1 e2 fn h
    have h12 : (e1.value == e2.value) = false := by
      simp [h]
    have h21 : (e2.value == e1.value) = false := by
      simp [Ne.symm h]
    have h21p : ¬ (e2.value = e1.value) := Ne.symm h
    have hattrs : (_CallbackWrapper.init (.list [e1, e2]) fn).attrs =
        [(e1.value,
          { filter := EventFilter.make e1.every e1.once e1.filter_fn,
            fn := fn }),
         (e2.value,
          { filter := EventFilter.make e2.every e2.once e2.filter_fn,
            fn := fn })] := by
      simp [_CallbackWrapper.init, setAttr, h12]
    refine ⟨hattrs, ?_, ?_, ?_⟩
    · intro p hp
      rw [hattrs] at hp
      simp only [List.mem_cons, List.not_mem_nil, or_false] at hp
      rcases hp with hp | hp <;> rw [hp] <;> rfl
    · simp [_CallbackWrapper.invoke, _CallbackWrapper.getAttr, hattrs, h21,
            h21p, FilteredFn.call, EventFilter.make]
    · simp [_CallbackWrapper.invoke, _CallbackWrapper.getAttr, hattrs, h21,
            h21p, h12]

/-- C9 witness: `my_hook` bound to `on_train_begin` and `on_train_end`. -/
theorem wrapper_event_binding_witness :
    (let e1 : _SingleEventState := ⟨"on_train_begin", none, none, none⟩
     let e2 : _SingleEventState := ⟨"on_train_end", some 2, none, none⟩
     let fn : NamedFn := ⟨"my_hook", 0⟩
     e1.value ≠ e2.value ∧
       ((_CallbackWrapper.init (.list [e1, e2]) fn).attrs =
           [(e1.value,
             { filter := EventFilter.make e1.every e1.once e1.filter_fn,
               fn := fn }),
            (e2.value,
             { filter := EventFilter.make e2.every e2.once e2.filter_fn,
               fn := fn })]
         ∧ (∀ p ∈ (_CallbackWrapper.init (.list [e1, e2]) fn).attrs,
             p.2.filter.count = 0)
         ∧ (((_CallbackWrapper.init (.list [e1, e2]) fn).invoke
               e1.value).getAttr e1.value).map (fun f => f.filter.count)
             = some 1
         ∧ ((_CallbackWrapper.init (.list [e1, e2]) fn).invoke
               e1.value).getAttr e2.value
             = (_CallbackWrapper.init (.list [e1, e2]) fn).getAttr
                 e2.value)) :=
  ⟨by decide, wrapper_event_binding_spec.2 _ _ _ (by decide)⟩
